import Mathlib

/-!
Verification of the navallist state-synchronization core.

The definitions below are a shallow embedding of the Go storage layer
(`internal/data`), the SQL schema and trigger
(`migrations/000001_initial_schema.up.sql`), the agent tool bridge, and the
realtime subscribe handler.  Rows are Lean structures, the database is an
explicit state value, SQL statements become pure functions on that state, and
fallible operations return `Except`.  Timestamps (`now()` / `time.Now()`) are
passed explicitly as a `Nat` parameter.
-/

namespace Navallist

/-- A row of the `users` table (columns relevant to the core). -/
structure User where
  id : String
  name : Option String
  deriving Repr, DecidableEq

/-- A row of the `trip` table. -/
structure Trip where
  id : String
  adk_session_id : String
  user_id : Option String
  boat_name : Option String
  captain_name : Option String
  status : String
  trip_type : String
  deriving Repr, DecidableEq

/-- A row of the `checklist_item` table.  Row ids (`shortkey_generate()`)
are modelled as naturals drawn from a fresh-id counter in the state. -/
structure ChecklistItem where
  id : Nat
  trip_id : String
  category : String
  name : String
  item_type : Option String
  is_checked : Bool
  count_value : Int
  location_text : Option String
  flagged_issue : Option String
  completed_by_user_id : Option String
  completed_by_name : Option String
  assigned_to_user_id : Option String
  assigned_to_name : Option String
  updated_at : Nat
  deriving Repr, DecidableEq

/-- A row of the `trip_crew` table. -/
structure TripCrew where
  trip_id : String
  user_id : String
  display_name : Option String
  deriving Repr, DecidableEq

/-- The database state: the tables the core touches plus a fresh-id counter
standing for the DB's key generator. -/
structure DB where
  trips : List Trip
  items : List ChecklistItem
  users : List User
  trip_crew : List TripCrew
  nextId : Nat
  deriving Repr, DecidableEq

/-- `WHERE id = $1 OR adk_session_id = $1` on the `trip` table. -/
def tripMatches (key : String) (t : Trip) : Bool :=
  t.id == key || t.adk_session_id == key

/-- `SELECT .. FROM trip WHERE id = $1 OR adk_session_id = $1 LIMIT 1`. -/
def findTrip (db : DB) (key : String) : Option Trip :=
  db.trips.find? (tripMatches key)

/-- The conflict key of the upsert: `(trip_id, name)` equality, matching the
`unique_trip_item_name` constraint. -/
def itemKeyIs (tripID itemName : String) (r : ChecklistItem) : Bool :=
  r.trip_id == tripID && r.name == itemName

/-- The `DO UPDATE SET` clause of the upsert: overwrite `is_checked` and
`completed_by_*` unconditionally, keep `location_text` unless the incoming
value (a non-null Go string) is non-empty, and `COALESCE` the two
`assigned_to_*` columns with the stored values. -/
def conflictUpdate (isChecked : Bool) (location : String)
    (userToRecord nameToRecord assignedToUserID assignedToName : Option String)
    (now : Nat) (old : ChecklistItem) : ChecklistItem :=
  { old with
    is_checked := isChecked
    location_text :=
      if location != "" then some location else old.location_text
    completed_by_user_id := userToRecord
    completed_by_name := nameToRecord
    assigned_to_user_id :=
      match assignedToUserID with
      | some v => some v
      | none => old.assigned_to_user_id
    assigned_to_name :=
      match assignedToName with
      | some v => some v
      | none => old.assigned_to_name
    updated_at := now }

/-- `SQLStore.UpdateItem` (internal/data/checklist.go): computes
`userToRecord`/`nameToRecord` from `isChecked`, then runs the
`INSERT .. ON CONFLICT (trip_id, name) DO UPDATE` statement, with
`conflictUpdate` as the `DO UPDATE SET` clause.  The insert branch stores
the literal incoming values (and fails the `trip_id` foreign key if no trip
row has that id). -/
def UpdateItem (db : DB) (tripID itemName : String) (isChecked : Bool)
    (location : String) (userID : Option String) (completedByName : String)
    (assignedToUserID assignedToName : Option String) (now : Nat) :
    Except String (DB × ChecklistItem) :=
  let userToRecord : Option String := if isChecked then userID else none
  let nameToRecord : Option String :=
    if isChecked then (if completedByName != "" then some completedByName else none)
    else none
  match db.items.find? (itemKeyIs tripID itemName) with
  | some old =>
      let newRow : ChecklistItem :=
        conflictUpdate isChecked location userToRecord nameToRecord
          assignedToUserID assignedToName now old
      Except.ok
        ({ db with
            items := db.items.map
              (fun r => if itemKeyIs tripID itemName r then newRow else r) },
          newRow)
  | none =>
      if (db.trips.find? (fun t => t.id == tripID)).isSome then
        let newRow : ChecklistItem :=
          { id := db.nextId
            trip_id := tripID
            category := "General"
            name := itemName
            item_type := none
            is_checked := isChecked
            count_value := 0
            location_text := some location
            flagged_issue := none
            completed_by_user_id := userToRecord
            completed_by_name := nameToRecord
            assigned_to_user_id := assignedToUserID
            assigned_to_name := assignedToName
            updated_at := now }
        Except.ok
          ({ db with items := db.items ++ [newRow], nextId := db.nextId + 1 },
            newRow)
      else Except.error "insert or update on table checklist_item violates foreign key constraint"

/-- `SQLStore.GetUser`: `SELECT * FROM users WHERE id = $1`. -/
def GetUser (db : DB) (id : String) : Except String User :=
  match db.users.find? (fun u => u.id == id) with
  | some u => Except.ok u
  | none => Except.error "sql: no rows in result set"

/-- `LOWER(..)` / ASCII lowercasing, at the character-list level. -/
def lowerStr (s : String) : List Char := s.data.map Char.toLower

/-- `SQLStore.FindUserByName`:
`SELECT * FROM users WHERE LOWER(name) = LOWER($1) LIMIT 1` (rows whose
`name` is NULL never compare equal). -/
def FindUserByName (db : DB) (name : String) : Except String User :=
  match db.users.find?
      (fun u =>
        match u.name with
        | some nm => lowerStr nm == lowerStr name
        | none => false) with
  | some u => Except.ok u
  | none => Except.error "sql: no rows in result set"

/-- The seven-way `UNION` of crew-name sources shared by `GetActiveCrewNames`
and `FindCrewMember` (src/unnamed/part_008): captain name, `trip_crew`
display names, registered users referenced by `assigned_to_user_id` and by
`completed_by_user_id`, the literal `assigned_to_name` and
`completed_by_name` columns, and the trip owner's registered name. -/
def crewNamesRaw (db : DB) (tid : String) : List String :=
  (db.trips.filter (fun t => t.id == tid)).filterMap (fun t => t.captain_name) ++
  (db.trip_crew.filter (fun c => c.trip_id == tid)).filterMap (fun c => c.display_name) ++
  (db.items.filter (fun ci => ci.trip_id == tid)).filterMap
    (fun ci => ci.assigned_to_user_id.bind
      (fun uid => (db.users.find? (fun u => u.id == uid)).bind (fun u => u.name))) ++
  (db.items.filter (fun ci => ci.trip_id == tid)).filterMap
    (fun ci => ci.completed_by_user_id.bind
      (fun uid => (db.users.find? (fun u => u.id == uid)).bind (fun u => u.name))) ++
  (db.items.filter (fun ci => ci.trip_id == tid)).filterMap (fun ci => ci.assigned_to_name) ++
  (db.items.filter (fun ci => ci.trip_id == tid)).filterMap (fun ci => ci.completed_by_name) ++
  (db.trips.filter (fun t => t.id == tid)).filterMap
    (fun t => t.user_id.bind
      (fun uid => (db.users.find? (fun u => u.id == uid)).bind (fun u => u.name)))

/-- `UNION` deduplicates, so the crew-name multiset is its deduplication. -/
def crewNames (db : DB) (tid : String) : List String :=
  (crewNamesRaw db tid).dedup

/-- `SQLStore.GetActiveCrewNames`: resolve the real trip id
(`WHERE id = $1 OR adk_session_id = $1`), then select the distinct crew
names with `name <> ''`. -/
def GetActiveCrewNames (db : DB) (tripID : String) : Except String (List String) :=
  match findTrip db tripID with
  | none => Except.error "sql: no rows in result set"
  | some t => Except.ok ((crewNames db t.id).filter (fun n => n != ""))

/-- `LOWER(name) = LOWER($2)` / `strings.EqualFold` (ASCII case folding). -/
def eqFold (a b : String) : Bool := lowerStr a == lowerStr b

/-- `needle` occurs as a contiguous substring of the haystack
(`LIKE '%' || needle || '%'`). -/
def infixOf (needle : List Char) : List Char → Bool
  | [] => needle.isEmpty
  | c :: rest => needle.isPrefixOf (c :: rest) || infixOf needle rest

/-- `LOWER(name) LIKE '%' || LOWER($2) || '%'`. -/
def containsLowered (name q : String) : Bool :=
  infixOf (lowerStr q) (lowerStr name)

/-- The `WHERE` clause of `FindCrewMember`'s main query. -/
def crewMatch (q : String) (n : String) : Bool :=
  n != "" && (eqFold n q || containsLowered n q)

/-- `CASE WHEN LOWER(name) = LOWER($2) THEN 0 ELSE 1 END`. -/
def exactRank (q n : String) : Nat := if eqFold n q then 0 else 1

/-- Byte-order lexicographic comparison of character lists, the `name ASC`
sort key of the query (trip ids and names are ASCII short keys, so byte
order and the column collation agree). -/
def lexLt : List Char → List Char → Bool
  | [], [] => false
  | [], _ :: _ => true
  | _ :: _, [] => false
  | a :: as, b :: bs =>
    if a < b then true else if b < a then false else lexLt as bs

/-- Strict comparison under `ORDER BY exactRank ASC, name ASC`. -/
def rankLtB (q a b : String) : Bool :=
  decide (exactRank q a < exactRank q b) ||
    (exactRank q a == exactRank q b && lexLt a.data b.data)

/-- `ORDER BY .. LIMIT 1`: the minimal candidate under `rankLtB`, `none`
when the candidate list is empty. -/
def selectFirst (q : String) : List String → Option String
  | [] => none
  | n :: rest =>
    match selectFirst q rest with
    | none => some n
    | some m => if rankLtB q n m then some n else some m

/-- `SQLStore.FindCrewMember`: resolve the real trip id, gather the crew
names, keep those matching the query exactly (case-insensitively) or as a
case-insensitive substring, and return the first under
`ORDER BY exact-match-first, name ASC`; `sql.ErrNoRows` on the main query is
mapped to `("", nil)`, modelled as `ok none`. -/
def FindCrewMember (db : DB) (tripID q : String) : Except String (Option String) :=
  match findTrip db tripID with
  | none => Except.error "sql: no rows in result set"
  | some t => Except.ok (selectFirst q ((crewNames db t.id).filter (crewMatch q)))

/-- The `currentUserName` computed inside `UpdateItemWithAssignment`: empty
for `guest_`-prefixed callers, otherwise the caller's registered name when
`GetUser` succeeds and the name is non-null. -/
def currentUserNameOf (db : DB) (currentUserID : String) : String :=
  if "guest_".data.isPrefixOf currentUserID.data then ""
  else
    match GetUser db currentUserID with
    | Except.ok u =>
      match u.name with
      | some nm => nm
      | none => ""
    | Except.error _ => ""

/-- `SQLStore.UpdateItemWithAssignment` (src/unnamed/part_008): fuzzy-resolve
the assignee via `FindCrewMember` (errors ignored, treated as no match), fall
back to the caller's own registered name on a case-insensitive match, look up
a registered user id for the resolved name, otherwise record the literal
free-text name with `matchFound = false`; finally run the `UpdateItem`
upsert.  Returns the updated state, the row, and `matchFound`. -/
def UpdateItemWithAssignment (db : DB) (tripID itemName : String)
    (isChecked : Bool) (location _photoID currentUserID assignedToName : String)
    (now : Nat) : Except String (DB × ChecklistItem × Bool) :=
  let resolved :=
    if assignedToName != "" then
      let match0 : String :=
        match FindCrewMember db tripID assignedToName with
        | Except.ok (some m) => m
        | Except.ok none => ""
        | Except.error _ => ""
      let currentUserName := currentUserNameOf db currentUserID
      let match1 : String :=
        if match0 == "" && currentUserName != "" && eqFold assignedToName currentUserName
        then currentUserName else match0
      if match1 != "" then
        let assignedToUserID : Option String :=
          match FindUserByName db match1 with
          | Except.ok regUser => some regUser.id
          | Except.error _ =>
            if eqFold match1 currentUserName &&
                !("guest_".data.isPrefixOf currentUserID.data)
            then some currentUserID else none
        (assignedToUserID, some match1, true)
      else
        ((none : Option String), some assignedToName, false)
    else ((none : Option String), (none : Option String), true)
  let uidPtr : Option String := if currentUserID != "" then some currentUserID else none
  match UpdateItem db tripID itemName isChecked location uidPtr currentUserID
      resolved.1 resolved.2.1 now with
  | Except.ok (db2, item) => Except.ok (db2, item, resolved.2.2)
  | Except.error e => Except.error e

/-- `SQLStore.GetTrip`: `SELECT .. FROM trip WHERE id = $1 OR
adk_session_id = $1 LIMIT 1`. -/
def GetTrip (db : DB) (tripID : String) : Except String Trip :=
  match findTrip db tripID with
  | some t => Except.ok t
  | none => Except.error "sql: no rows in result set"

/-- `SQLStore.GetTripIDBySessionID`:
`SELECT id FROM trip WHERE adk_session_id = $1 LIMIT 1`. -/
def GetTripIDBySessionID (db : DB) (sessionID : String) : Except String String :=
  match db.trips.find? (fun t => t.adk_session_id == sessionID) with
  | some t => Except.ok t.id
  | none => Except.error "sql: no rows in result set"

/-- `SQLStore.UpdateTripStatus`: `UPDATE trip SET status = $1 WHERE id = $2
OR adk_session_id = $2`; zero affected rows is an error. -/
def UpdateTripStatus (db : DB) (tripID status : String) : Except String DB :=
  if (db.trips.filter (tripMatches tripID)).length = 0 then
    Except.error "trip not found"
  else
    let trips2 := db.trips.map
      (fun t => if tripMatches tripID t then { t with status := status } else t)
    Except.ok { db with trips := trips2 }

/-- `SQLStore.UpdateTripType`: `UPDATE trip SET trip_type = $1 WHERE id = $2
OR adk_session_id = $2`; zero affected rows is an error. -/
def UpdateTripType (db : DB) (tripID tripType : String) : Except String DB :=
  if (db.trips.filter (tripMatches tripID)).length = 0 then
    Except.error "trip not found"
  else
    let trips2 := db.trips.map
      (fun t => if tripMatches tripID t then { t with trip_type := tripType } else t)
    Except.ok { db with trips := trips2 }

/-- `SQLStore.DeleteTrip`: `DELETE FROM trip WHERE id = $1 OR
adk_session_id = $1`, with `ON DELETE CASCADE` removing the deleted trips'
checklist items and crew rows; zero affected rows is an error. -/
def DeleteTrip (db : DB) (tripID : String) : Except String DB :=
  let deleted := (db.trips.filter (tripMatches tripID)).map (fun t => t.id)
  if deleted.length = 0 then Except.error "trip not found"
  else
    Except.ok
      { db with
        trips := db.trips.filter (fun t => !(tripMatches tripID t))
        items := db.items.filter (fun ci => !(deleted.contains ci.trip_id))
        trip_crew := db.trip_crew.filter (fun c => !(deleted.contains c.trip_id)) }

/-- `ORDER BY ci.category, ci.name` of `GetTripReport`. -/
def reportLE (a b : ChecklistItem) : Bool :=
  decide (a.category < b.category) ||
    (a.category == b.category && decide (a.name ≤ b.name))

/-- `SQLStore.GetTripReport`: `SELECT .. FROM checklist_item ci .. WHERE
ci.trip_id = (SELECT id FROM trip WHERE id = $1 OR adk_session_id = $1
LIMIT 1) ORDER BY ci.category, ci.name`.  When the subselect finds no trip
the comparison with NULL matches no rows and the result is empty.  The
in-memory artifact (photo) enrichment of the returned slice touches no
checklist or trip state and is outside the modelled tables. -/
def GetTripReport (db : DB) (tripID : String) : Except String (List ChecklistItem) :=
  match findTrip db tripID with
  | none => Except.ok []
  | some t => Except.ok ((db.items.filter (fun ci => ci.trip_id == t.id)).mergeSort reportLE)

/-! ### The `notify_changes` trigger (migrations/000001_initial_schema.up.sql)

JSON values are modelled by a small AST; `::text` serialization is a
deterministic rendering with string escaping.  A trigger's `NEW` record is an
`Option` field list: `none` models the PL/pgSQL record variable being
unassigned, which is its state in a row trigger fired by `DELETE`; reading a
field of an unassigned record raises a PL/pgSQL error. -/

mutual

inductive Json where
  | str (s : String)
  | num (n : Int)
  | bool (b : Bool)
  | null
  | obj (fs : JsonFields)

inductive JsonFields where
  | nil
  | cons (key : String) (value : Json) (rest : JsonFields)

end

/-- JSON string escaping for the serializer. -/
def escapeChar (c : Char) : List Char :=
  if c = '"' then ['\\', '"'] else if c = '\\' then ['\\', '\\'] else [c]

/-- Escape a whole string. -/
def escapeString (s : String) : String := String.mk (s.data.flatMap escapeChar)

mutual

/-- Deterministic `::text` rendering of a JSON value. -/
def jsonText : Json → String
  | Json.str s => "\"" ++ escapeString s ++ "\""
  | Json.num n => toString n
  | Json.bool b => if b then "true" else "false"
  | Json.null => "null"
  | Json.obj fs => "\x7b" ++ jsonFieldsText fs ++ "\x7d"

/-- Rendering of an object's field list. -/
def jsonFieldsText : JsonFields → String
  | JsonFields.nil => ""
  | JsonFields.cons k v JsonFields.nil =>
      "\"" ++ escapeString k ++ "\": " ++ jsonText v
  | JsonFields.cons k v (JsonFields.cons k2 v2 rest) =>
      "\"" ++ escapeString k ++ "\": " ++ jsonText v ++ ", " ++
        jsonFieldsText (JsonFields.cons k2 v2 rest)

end

/-- Key lookup in an object's field list. -/
def fieldsLookup : JsonFields → String → Option Json
  | JsonFields.nil, _ => none
  | JsonFields.cons k v rest, f =>
    if k == f then some v else fieldsLookup rest f

/-- Field lookup on a JSON object. -/
def objLookup (j : Json) (k : String) : Option Json :=
  match j with
  | Json.obj fs => fieldsLookup fs k
  | _ => none

/-- Reading `NEW.f` in PL/pgSQL: an error when the record is unassigned (as
in a DELETE row trigger) or lacks the field; otherwise the column value
(`Json.null` for a NULL column). -/
def recField (rec? : Option JsonFields) (f : String) : Except String Json :=
  match rec? with
  | none => Except.error "record \"new\" is not assigned yet"
  | some fs =>
    match fieldsLookup fs f with
    | some v => Except.ok v
    | none => Except.error "record \"new\" has no field"

/-- The `notify_changes()` trigger function: derive `v_trip_id` from
`NEW.id` (trip table) or `NEW.trip_id` (other tables), build the full
payload `{table, action, data, trip_id}`, and if its text form is longer
than 7500 characters replace it by the truncated marker
`{table, action, trip_id, truncated}`.  The returned JSON is what
`pg_notify` broadcasts. -/
def notify_changes (tgTable tgOp : String) (NEW : Option JsonFields) :
    Except String Json := do
  let v_trip_id ←
    if tgTable == "trip" then recField NEW "id" else recField NEW "trip_id"
  let rowJ ←
    match NEW with
    | some fs => Except.ok (Json.obj fs)
    | none => Except.error "record \"new\" is not assigned yet"
  let payload := Json.obj
    (JsonFields.cons "table" (Json.str tgTable)
      (JsonFields.cons "action" (Json.str tgOp)
        (JsonFields.cons "data" rowJ
          (JsonFields.cons "trip_id" v_trip_id JsonFields.nil))))
  let payload_text := jsonText payload
  if payload_text.length > 7500 then
    Except.ok (Json.obj
      (JsonFields.cons "table" (Json.str tgTable)
        (JsonFields.cons "action" (Json.str tgOp)
          (JsonFields.cons "trip_id" v_trip_id
            (JsonFields.cons "truncated" (Json.bool true) JsonFields.nil)))))
  else
    Except.ok payload

/-! ### The agent tool bridge (src/unnamed/part_006) -/

/-- `UpdateChecklistArgs`: one item update in a batch. -/
structure UpdateChecklistArgs where
  item_name : String
  is_checked : Bool
  location : String
  photo_artifact_id : String
  assigned_to_name : String
  deriving Repr, DecidableEq

/-- `ToolResult`: status plus human-readable message. -/
structure ToolResult where
  status : String
  message : String
  deriving Repr, DecidableEq

/-- The tool context: ADK session id and acting user id. -/
structure ToolCtx where
  session_id : String
  user_id : String
  deriving Repr, DecidableEq

/-- `ChecklistTool.resolveTripID`: DB primary key from the ADK session id,
wrapping the not-found error. -/
def resolveTripID (db : DB) (adkSessionID : String) : Except String String :=
  match GetTripIDBySessionID db adkSessionID with
  | Except.ok id => Except.ok id
  | Except.error e =>
    Except.error ("trip not found for session " ++ adkSessionID ++ ": " ++ e)

/-- `strings.Contains`. -/
def containsSub (s sub : String) : Bool := infixOf sub.data s.data

/-- `ChecklistTool.updateItemInternal`, keeping the updated row and the
`matchFound` flag visible alongside the `ToolResult` it builds from them.
On failure the state is returned unchanged (a failed upsert mutates
nothing). -/
def updateItemCore (db : DB) (ctx : ToolCtx) (args : UpdateChecklistArgs)
    (now : Nat) : DB × Except String (ToolResult × ChecklistItem × Bool) :=
  if ctx.session_id == "" then (db, Except.error "session_id missing from context")
  else
    match resolveTripID db ctx.session_id with
    | Except.error e => (db, Except.error e)
    | Except.ok tripID =>
      let photoID :=
        if args.photo_artifact_id != "" && !(containsSub args.photo_artifact_id "?v=")
        then "" else args.photo_artifact_id
      match UpdateItemWithAssignment db tripID args.item_name args.is_checked
          args.location photoID ctx.user_id args.assigned_to_name now with
      | Except.error e => (db, Except.error ("failed to update: " ++ e))
      | Except.ok (db2, updated, matchFound) =>
        let loc := match updated.location_text with | some l => l | none => ""
        let msg0 := "Updated " ++ updated.name ++ ": Checked=" ++
          (if updated.is_checked then "true" else "false") ++ ", Location=" ++ loc
        let statusMsg :=
          match updated.assigned_to_name with
          | some an =>
            let m := msg0 ++ ", Assigned To=" ++ an
            if !matchFound then
              ("warning", m ++ " (Warning: Name not in crew list)")
            else ("success", m)
          | none => ("success", msg0)
        let msg2 :=
          if photoID != "" then statusMsg.2 ++ " (Photo attached)" else statusMsg.2
        (db2, Except.ok (⟨statusMsg.1, msg2⟩, updated, matchFound))

/-- `updateItemInternal` as its callers see it: just the `ToolResult`. -/
def updateItemInternal (db : DB) (ctx : ToolCtx) (args : UpdateChecklistArgs)
    (now : Nat) : DB × Except String ToolResult :=
  let r := updateItemCore db ctx args now
  (r.1, r.2.map (fun x => x.1))

/-- The loop body of `ChecklistTool.UpdateItems`: apply every update in
order, threading the state, and accumulate (in iteration order) the
successful item names, the `name: error` strings of failed items, and the
messages of warning results.  A failed item does not stop the loop. -/
def updateItemsLoop (ctx : ToolCtx) (now : Nat) :
    DB → List UpdateChecklistArgs → DB × List String × List String × List String
  | db, [] => (db, [], [], [])
  | db, u :: rest =>
    let step := updateItemInternal db ctx u now
    let tail := updateItemsLoop ctx now step.1 rest
    match step.2 with
    | Except.error e =>
      (tail.1, tail.2.1, (u.item_name ++ ": " ++ e) :: tail.2.2.1, tail.2.2.2)
    | Except.ok res =>
      let warns :=
        if res.status == "warning" then res.message :: tail.2.2.2 else tail.2.2.2
      (tail.1, u.item_name :: tail.2.1, tail.2.2.1, warns)

/-- `ChecklistTool.UpdateItems`: run the loop, then classify the aggregate:
start from `success`, switch to `partial_success` when any item failed, and
to `warning` when all applied but at least one warned. -/
def UpdateItems (db : DB) (ctx : ToolCtx) (updates : List UpdateChecklistArgs)
    (now : Nat) : DB × ToolResult :=
  let r := updateItemsLoop ctx now db updates
  let successes := r.2.1
  let errors := r.2.2.1
  let warnings := r.2.2.2
  let msg0 := "Updated " ++ toString successes.length ++ " items: " ++
    String.intercalate ", " successes ++ "."
  let stage1 :=
    if errors.length > 0 then
      ("partial_success",
        msg0 ++ " Failed items: " ++ String.intercalate ", " errors ++ ".")
    else ("success", msg0)
  let stage2 :=
    if warnings.length > 0 then
      ((if stage1.1 == "success" then "warning" else stage1.1),
        stage1.2 ++ " Warnings: " ++ String.intercalate ", " warnings ++ ".")
    else stage1
  (r.1, ⟨stage2.1, stage2.2⟩)

/-! ### The realtime subscribe handler (src/unnamed/part_012) -/

/-- The options the handler sets on an accepted subscription; `data` is the
initial payload seeded to the subscriber. -/
structure SubscribeReply where
  emitPresence : Bool
  emitJoinLeave : Bool
  pushJoinLeave : Bool
  data : String
  deriving Repr, DecidableEq

/-- The two rejection outcomes of the subscribe callback. -/
inductive SubscribeError where
  | invalidChannelFormat
  | permissionDenied
  deriving Repr, DecidableEq

/-- `json.Marshal` of the server-side presence map (client id to its
already-serialized info payload). -/
def marshalPresence (m : List (String × String)) : String :=
  "\x7b" ++
    String.intercalate ","
      (m.map (fun kv => "\"" ++ escapeString kv.1 ++ "\":" ++ kv.2)) ++
    "\x7d"

/-- The `OnSubscribe` callback: require the `trip:` channel prefix, look the
trip up by the trimmed id (permission denied when absent), then seed the
reply with the server-fetched presence snapshot (empty object when the map
is nil or the presence call failed).  `presenceRes` stands for the result of
`node.Presence(channel)`. -/
def OnSubscribe (db : DB)
    (presenceRes : Except String (Option (List (String × String))))
    (channel : String) : Except SubscribeError SubscribeReply :=
  if !("trip:".data.isPrefixOf channel.data) then
    Except.error SubscribeError.invalidChannelFormat
  else
    let tripID := String.mk (channel.data.drop 5)
    match GetTrip db tripID with
    | Except.error _ => Except.error SubscribeError.permissionDenied
    | Except.ok _ =>
      let initialPresence :=
        match presenceRes with
        | Except.ok (some m) => marshalPresence m
        | Except.ok none => "\x7b\x7d"
        | Except.error _ => "\x7b\x7d"
      Except.ok ⟨true, true, true, initialPresence⟩

/-! ### The trusted crew set as the specification states it -/

/-- The trusted crew set in the specification's words (§3 of the spec):
"the captain name, explicitly joined display names, and any user referenced
by item assignment/completion" — reading "referenced users" generously as
both the registered users reached through `assigned_to_user_id` /
`completed_by_user_id` and the literal `assigned_to_name` /
`completed_by_name` strings.  It deliberately does NOT include the trip
owner's registered name, which the code's queries add as a seventh source.
Used to compare the specified set with the one the code resolves against. -/
def specTrustedCrewNames (db : DB) (tid : String) : List String :=
  ((db.trips.filter (fun t => t.id == tid)).filterMap (fun t => t.captain_name) ++
   (db.trip_crew.filter (fun c => c.trip_id == tid)).filterMap (fun c => c.display_name) ++
   (db.items.filter (fun ci => ci.trip_id == tid)).filterMap
     (fun ci => ci.assigned_to_user_id.bind
       (fun uid => (db.users.find? (fun u => u.id == uid)).bind (fun u => u.name))) ++
   (db.items.filter (fun ci => ci.trip_id == tid)).filterMap
     (fun ci => ci.completed_by_user_id.bind
       (fun uid => (db.users.find? (fun u => u.id == uid)).bind (fun u => u.name))) ++
   (db.items.filter (fun ci => ci.trip_id == tid)).filterMap (fun ci => ci.assigned_to_name) ++
   (db.items.filter (fun ci => ci.trip_id == tid)).filterMap (fun ci => ci.completed_by_name)).dedup

/-! ### Helper lemmas -/

/-- Replacing the row found by `find?` with a row still satisfying the
predicate makes `find?` return the replacement. -/
theorem find?_map_replace {α : Type} (p : α → Bool) (n : α) {r : α}
    {l : List α} (hp : p n = true) (h : l.find? p = some r) :
    (l.map (fun x => if p x then n else x)).find? p = some n := by
  induction l with
  | nil => simp at h
  | cons a t ih =>
    by_cases hpa : p a = true
    · simp [List.find?_cons, hpa, hp]
    · have hpa2 : p a = false := by simpa using hpa
      rw [List.find?_cons_of_neg _ (by simp [hpa2])] at h
      simpa [List.find?_cons, hpa2] using ih h

/-- A prepended list on which `find?` fails does not change the result. -/
theorem find?_append_left_none {α : Type} (p : α → Bool) {l₁ : List α}
    (l₂ : List α) (h : l₁.find? p = none) :
    (l₁ ++ l₂).find? p = l₂.find? p := by
  induction l₁ with
  | nil => rfl
  | cons a t ih =>
    rw [List.find?_eq_none] at h
    have hpa : ¬ p a = true := h a (by simp)
    rw [List.cons_append, List.find?_cons_of_neg _ hpa]
    exact ih (List.find?_eq_none.mpr (fun x hx => h x (by simp [hx])))

/-- Replacing predicate-matching rows by a matching row rewrites exactly the
matching sublist. -/
theorem filter_map_replace {α : Type} (p : α → Bool) (n : α)
    (hp : p n = true) (l : List α) :
    (l.map (fun x => if p x then n else x)).filter p =
      (l.filter p).map (fun _ => n) := by
  induction l with
  | nil => rfl
  | cons a t ih =>
    by_cases hpa : p a = true
    · simp [List.filter_cons, hpa, hp, ih]
    · have hpa2 : p a = false := by simpa using hpa
      simp [List.filter_cons, hpa2, ih]

/-- With pairwise-distinct keys and a predicate pinning the key, the matching
rows are exactly the singleton `find?` returns. -/
theorem filter_eq_singleton_of_nodup_keys {α κ : Type} (p : α → Bool)
    (key : α → κ) {l : List α} {r : α}
    (hk : ∀ x y, p x = true → p y = true → key x = key y)
    (hnd : (l.map key).Nodup) (hfind : l.find? p = some r) :
    l.filter p = [r] := by
  induction l with
  | nil => simp at hfind
  | cons a t ih =>
    rw [List.map_cons, List.nodup_cons] at hnd
    by_cases hpa : p a = true
    · rw [List.find?_cons_of_pos _ hpa] at hfind
      obtain rfl : a = r := by injection hfind
      have ht : t.filter p = [] := by
        rw [List.filter_eq_nil_iff]
        intro y hy hpy
        exact hnd.1 (by
          rw [hk a y hpa hpy]
          exact List.mem_map_of_mem key hy)
      simp [List.filter_cons, hpa, ht]
    · rw [List.find?_cons_of_neg _ hpa] at hfind
      rw [List.filter_cons, if_neg (by simpa using hpa)]
      exact ih hnd.2 hfind

/-! ### Claims about the upsert merge policy -/

/-- Claim C1: for a checklist row that already exists for `(tripID, name)`,
an `UpdateItem` call passing null assignment arguments (a checkbox-only
toggle) returns — and stores — the row with both `assigned_to_user_id` and
`assigned_to_name` unchanged; and when the incoming assignment values are
non-null they replace the stored ones. -/
theorem C1_sticky_assignment
    (db : DB) (tripID itemName : String) (isChecked : Bool)
    (location : String) (userID : Option String) (completedByName : String)
    (now : Nat) (r : ChecklistItem)
    (h : db.items.find? (itemKeyIs tripID itemName) = some r) :
    ((UpdateItem db tripID itemName isChecked location userID completedByName
        none none now).map
      (fun p => (p.2.assigned_to_user_id, p.2.assigned_to_name))
      = Except.ok (r.assigned_to_user_id, r.assigned_to_name))
    ∧ ((UpdateItem db tripID itemName isChecked location userID completedByName
        none none now).map
      (fun p => (p.1.items.find? (itemKeyIs tripID itemName)).map
        (fun x => (x.assigned_to_user_id, x.assigned_to_name)))
      = Except.ok (some (r.assigned_to_user_id, r.assigned_to_name)))
    ∧ (∀ au an : String,
      (UpdateItem db tripID itemName isChecked location userID completedByName
        (some au) (some an) now).map
        (fun p => (p.2.assigned_to_user_id, p.2.assigned_to_name))
      = Except.ok (some au, some an)) := by
  have hkey : itemKeyIs tripID itemName r = true := List.find?_some h
  refine ⟨?_, ?_, ?_⟩
  · simp [UpdateItem, h, Except.map, conflictUpdate]
  · have hrepl := find?_map_replace (itemKeyIs tripID itemName)
      (n := conflictUpdate isChecked location
        (if isChecked then userID else none)
        (if isChecked then
          (if completedByName != "" then some completedByName else none)
         else none)
        none none now r)
      (by simpa [itemKeyIs, conflictUpdate] using hkey) h
    simp only [UpdateItem, h, Except.map]
    rw [hrepl]
    simp [conflictUpdate]
  · intro au an
    simp [UpdateItem, h, Except.map, conflictUpdate]

/-- A sample trip used by concrete witnesses. -/
def tripT1 : Trip :=
  { id := "t1", adk_session_id := "s1", user_id := none, boat_name := none,
    captain_name := some "Cap", status := "Draft", trip_type := "Departing" }

/-- A sample assigned checklist item used by concrete witnesses. -/
def itemOil : ChecklistItem :=
  { id := 0, trip_id := "t1", category := "General", name := "Oil",
    item_type := none, is_checked := false, count_value := 0,
    location_text := some "Deck", flagged_issue := none,
    completed_by_user_id := none, completed_by_name := none,
    assigned_to_user_id := some "u1", assigned_to_name := some "Ann",
    updated_at := 0 }

/-- A sample item with a recorded location used by concrete witnesses. -/
def itemMarina : ChecklistItem :=
  { id := 1, trip_id := "t1", category := "General", name := "Marina",
    item_type := none, is_checked := false, count_value := 0,
    location_text := some "Westpoint", flagged_issue := none,
    completed_by_user_id := none, completed_by_name := none,
    assigned_to_user_id := none, assigned_to_name := none, updated_at := 0 }

/-- A sample database with one trip and two items. -/
def dbSample : DB :=
  { trips := [tripT1], items := [itemOil, itemMarina], users := [],
    trip_crew := [], nextId := 2 }

/-- Witness for C1 at a concrete database: an item assigned to `Ann`
(`u1`), toggled with null assignment arguments, keeps its assignment. -/
theorem C1_sticky_assignment_witness :
    (UpdateItem dbSample "t1" "Oil" true "" none "" none none 5).map
      (fun p => (p.2.assigned_to_user_id, p.2.assigned_to_name))
      = Except.ok (some "u1", some "Ann") :=
  (C1_sticky_assignment dbSample "t1" "Oil" true "" none "" 5 itemOil rfl).1

/-- Claim C2: for a checklist row that already exists for `(tripID, name)`,
an `UpdateItem` call whose incoming location is the empty string leaves
`location_text` unchanged (in particular a non-empty recorded location is
never regressed to blank), and a non-empty incoming location overwrites
it. -/
theorem C2_location_monotonic
    (db : DB) (tripID itemName : String) (isChecked : Bool)
    (userID : Option String) (completedByName : String)
    (aU aN : Option String) (now : Nat) (r : ChecklistItem)
    (h : db.items.find? (itemKeyIs tripID itemName) = some r) :
    ((UpdateItem db tripID itemName isChecked "" userID completedByName
        aU aN now).map (fun p => p.2.location_text)
      = Except.ok r.location_text)
    ∧ (∀ loc : String, loc ≠ "" →
      (UpdateItem db tripID itemName isChecked loc userID completedByName
        aU aN now).map (fun p => p.2.location_text)
      = Except.ok (some loc)) := by
  refine ⟨?_, ?_⟩
  · simp [UpdateItem, h, Except.map, conflictUpdate]
  · intro loc hloc
    simp [UpdateItem, h, hloc, Except.map, conflictUpdate]

/-- The upsert's conflict predicate pins the `(trip_id, name)` pair. -/
theorem itemKeyIs_pins (tripID itemName : String) (x : ChecklistItem)
    (hx : itemKeyIs tripID itemName x = true) :
    (x.trip_id, x.name) = (tripID, itemName) := by
  simp [itemKeyIs] at hx
  simp [hx.1, hx.2]

/-- Applying the `DO UPDATE SET` clause twice with the same arguments equals
applying it once. -/
theorem conflictUpdate_idem (isChecked : Bool) (location : String)
    (uR nR aU aN : Option String) (now : Nat) (old : ChecklistItem) :
    conflictUpdate isChecked location uR nR aU aN now
      (conflictUpdate isChecked location uR nR aU aN now old) =
    conflictUpdate isChecked location uR nR aU aN now old := by
  cases aU <;> cases aN <;> cases hl : location != "" <;>
    simp [conflictUpdate, hl]

/-- A freshly inserted row is a fixpoint of the `DO UPDATE SET` clause with
the same arguments. -/
theorem conflictUpdate_fix_insert (isChecked : Bool) (location : String)
    (uR nR aU aN : Option String) (now : Nat) (id0 : Nat)
    (tripID itemName : String) :
    conflictUpdate isChecked location uR nR aU aN now
      { id := id0, trip_id := tripID, category := "General", name := itemName,
        item_type := none, is_checked := isChecked, count_value := 0,
        location_text := some location, flagged_issue := none,
        completed_by_user_id := uR, completed_by_name := nR,
        assigned_to_user_id := aU, assigned_to_name := aN,
        updated_at := now } =
      { id := id0, trip_id := tripID, category := "General", name := itemName,
        item_type := none, is_checked := isChecked, count_value := 0,
        location_text := some location, flagged_issue := none,
        completed_by_user_id := uR, completed_by_name := nR,
        assigned_to_user_id := aU, assigned_to_name := aN,
        updated_at := now } := by
  cases aU <;> cases aN <;> cases hl : location != "" <;>
    simp [conflictUpdate, hl]

/-- Claim C5: under the schema's uniqueness constraint on `(trip_id, name)`
(pairwise-distinct keys), a successful `UpdateItem` leaves exactly one row
for its key — the returned row — and running the identical call again
succeeds, returns the very same row (same id, same field values), and still
leaves exactly that one row. -/
theorem C5_idempotent_upsert
    (db0 : DB) (tripID itemName : String) (isChecked : Bool)
    (location : String) (userID : Option String) (completedByName : String)
    (aU aN : Option String) (now : Nat) (db1 : DB) (r1 : ChecklistItem)
    (hnd : (db0.items.map (fun r => (r.trip_id, r.name))).Nodup)
    (h1 : UpdateItem db0 tripID itemName isChecked location userID
      completedByName aU aN now = Except.ok (db1, r1)) :
    db1.items.filter (itemKeyIs tripID itemName) = [r1] ∧
    (UpdateItem db1 tripID itemName isChecked location userID completedByName
        aU aN now).map (fun p => p.2) = Except.ok r1 ∧
    (UpdateItem db1 tripID itemName isChecked location userID completedByName
        aU aN now).map
      (fun p => p.1.items.filter (itemKeyIs tripID itemName))
      = Except.ok [r1] := by
  have hk : ∀ x y : ChecklistItem,
      itemKeyIs tripID itemName x = true → itemKeyIs tripID itemName y = true →
      (x.trip_id, x.name) = (y.trip_id, y.name) := by
    intro x y hx hy
    rw [itemKeyIs_pins _ _ x hx, itemKeyIs_pins _ _ y hy]
  cases hfind : db0.items.find? (itemKeyIs tripID itemName) with
  | some old =>
    have hpold : itemKeyIs tripID itemName old = true := List.find?_some hfind
    simp only [UpdateItem, hfind, Except.ok.injEq, Prod.mk.injEq] at h1
    obtain ⟨hdb1, hr1⟩ := h1
    subst hdb1
    subst hr1
    have hpcu : itemKeyIs tripID itemName
        (conflictUpdate isChecked location
          (if isChecked then userID else none)
          (if isChecked then
            (if completedByName != "" then some completedByName else none)
           else none) aU aN now old) = true := hpold
    have hfo : db0.items.filter (itemKeyIs tripID itemName) = [old] :=
      filter_eq_singleton_of_nodup_keys _ _ hk hnd hfind
    have hrepl2 := find?_map_replace (itemKeyIs tripID itemName) _ hpcu hfind
    refine ⟨?_, ?_, ?_⟩
    · rw [filter_map_replace _ _ hpcu, hfo]
      rfl
    · simp only [UpdateItem, hrepl2, Except.map]
      rw [conflictUpdate_idem]
    · simp only [UpdateItem, hrepl2, Except.map]
      rw [conflictUpdate_idem,
        filter_map_replace _ _ hpcu, filter_map_replace _ _ hpcu, hfo]
      rfl
  | none =>
    simp only [UpdateItem, hfind] at h1
    by_cases htrip : (db0.trips.find? (fun t => t.id == tripID)).isSome = true
    · rw [if_pos htrip] at h1
      simp only [Except.ok.injEq, Prod.mk.injEq] at h1
      obtain ⟨hdb1, hr1⟩ := h1
      subst hdb1
      subst hr1
      set nrow : ChecklistItem :=
        { id := db0.nextId, trip_id := tripID, category := "General",
          name := itemName, item_type := none, is_checked := isChecked,
          count_value := 0, location_text := some location,
          flagged_issue := none,
          completed_by_user_id := if isChecked then userID else none,
          completed_by_name :=
            if isChecked then
              (if completedByName != "" then some completedByName else none)
            else none,
          assigned_to_user_id := aU, assigned_to_name := aN,
          updated_at := now } with hnrow
      have hpnew : itemKeyIs tripID itemName nrow = true := by
        simp [hnrow, itemKeyIs]
      have hf0 : db0.items.filter (itemKeyIs tripID itemName) = [] := by
        rw [List.filter_eq_nil_iff]
        intro x hx hpx
        exact (List.find?_eq_none.mp hfind x hx) hpx
      have hG1 : (db0.items ++ [nrow]).filter (itemKeyIs tripID itemName)
          = [nrow] := by
        rw [List.filter_append, hf0]
        simp [hpnew]
      have hfind1 := find?_append_left_none (itemKeyIs tripID itemName)
        [nrow] hfind
      rw [List.find?_cons_of_pos _ hpnew] at hfind1
      refine ⟨hG1, ?_, ?_⟩
      · simp only [UpdateItem, hfind1, Except.map]
        rw [hnrow, conflictUpdate_fix_insert]
      · simp only [UpdateItem, hfind1, Except.map]
        rw [hnrow, conflictUpdate_fix_insert, ← hnrow,
          filter_map_replace _ _ hpnew, hG1]
        rfl
    · rw [if_neg htrip] at h1
      exact absurd h1 (by simp)

/-- The row produced by the first witness upsert for C5. -/
def itemOilUpd : ChecklistItem :=
  { id := 0, trip_id := "t1", category := "General", name := "Oil",
    item_type := none, is_checked := true, count_value := 0,
    location_text := some "Deck", flagged_issue := none,
    completed_by_user_id := none, completed_by_name := none,
    assigned_to_user_id := some "u1", assigned_to_name := some "Ann",
    updated_at := 7 }

/-- The state after the first witness upsert for C5. -/
def dbAfterOil : DB :=
  { trips := [tripT1], items := [itemOilUpd, itemMarina], users := [],
    trip_crew := [], nextId := 2 }

/-- Witness for C5 at a concrete database: repeating the identical upsert
returns the same row and keeps exactly one row for the key. -/
theorem C5_idempotent_upsert_witness :
    dbAfterOil.items.filter (itemKeyIs "t1" "Oil") = [itemOilUpd] ∧
    (UpdateItem dbAfterOil "t1" "Oil" true "" none "" none none 7).map
      (fun p => p.2) = Except.ok itemOilUpd ∧
    (UpdateItem dbAfterOil "t1" "Oil" true "" none "" none none 7).map
      (fun p => p.1.items.filter (itemKeyIs "t1" "Oil"))
      = Except.ok [itemOilUpd] :=
  C5_idempotent_upsert dbSample "t1" "Oil" true "" none "" none none 7
    dbAfterOil itemOilUpd (by decide) rfl

/-- Witness for C2 at a concrete database: a checkbox-only update with an
empty location keeps the recorded location `Westpoint`. -/
theorem C2_location_monotonic_witness :
    (UpdateItem dbSample "t1" "Marina" true "" none "" none none 5).map
      (fun p => p.2.location_text)
      = Except.ok (some "Westpoint") :=
  (C2_location_monotonic dbSample "t1" "Marina" true none "" none none 5
    itemMarina rfl).1


/-! ### Claim C3: assignee resolution determinism -/

/-- `lexLt` is transitive. -/
theorem lexLt_trans : ∀ {a b c : List Char},
    lexLt a b = true → lexLt b c = true → lexLt a c = true := by
  intro a
  induction a with
  | nil =>
    intro b c h1 h2
    cases b with
    | nil => simp [lexLt] at h1
    | cons y ys =>
      cases c with
      | nil => simp [lexLt] at h2
      | cons z zs => simp [lexLt]
  | cons x xs ih =>
    intro b c h1 h2
    cases b with
    | nil => simp [lexLt] at h1
    | cons y ys =>
      cases c with
      | nil => simp [lexLt] at h2
      | cons z zs =>
        simp only [lexLt] at h1 h2 ⊢
        by_cases hxy : x < y
        · by_cases hyz : y < z
          · simp [lt_trans hxy hyz]
          · by_cases hzy : z < y
            · simp [hyz, hzy] at h2
            · have heq : y = z := le_antisymm (not_lt.mp hzy) (not_lt.mp hyz)
              subst heq
              simp [hxy]
        · by_cases hyx : y < x
          · simp [hxy, hyx] at h1
          · have heq : x = y := le_antisymm (not_lt.mp hyx) (not_lt.mp hxy)
            subst heq
            simp [lt_irrefl] at h1
            by_cases hyz : x < z
            · simp [hyz]
            · by_cases hzy : z < x
              · simp [hyz, hzy] at h2
              · have heq2 : x = z := le_antisymm (not_lt.mp hzy) (not_lt.mp hyz)
                subst heq2
                simp [lt_irrefl] at h2 ⊢
                exact ih h1 h2

/-- Two lists neither of which precedes the other are equal. -/
theorem lexLt_eq_of_both_false : ∀ {a b : List Char},
    lexLt a b = false → lexLt b a = false → a = b := by
  intro a
  induction a with
  | nil =>
    intro b h1 _
    cases b with
    | nil => rfl
    | cons y ys => simp [lexLt] at h1
  | cons x xs ih =>
    intro b h1 h2
    cases b with
    | nil => simp [lexLt] at h2
    | cons y ys =>
      simp only [lexLt] at h1 h2
      by_cases hxy : x < y
      · simp [hxy] at h1
      · by_cases hyx : y < x
        · simp [hyx, hxy] at h2
        · have heq : x = y := le_antisymm (not_lt.mp hyx) (not_lt.mp hxy)
          subst heq
          simp [lt_irrefl] at h1 h2
          rw [ih h1 h2]

/-- Non-strict string comparison derived from `lexLt`. -/
def strLe (a b : String) : Prop := a = b ∨ lexLt a.data b.data = true

/-- Non-strict comparison under the resolution query's
`ORDER BY exact-match-first, name ASC`. -/
def RankLe (q a b : String) : Prop :=
  exactRank q a < exactRank q b ∨ (exactRank q a = exactRank q b ∧ strLe a b)

/-- `strLe` is transitive. -/
theorem strLe_trans {a b c : String} (h1 : strLe a b) (h2 : strLe b c) :
    strLe a c := by
  rcases h1 with rfl | h1
  · exact h2
  · rcases h2 with rfl | h2
    · exact Or.inr h1
    · exact Or.inr (lexLt_trans h1 h2)

/-- `RankLe` is transitive. -/
theorem RankLe_trans {q a b c : String} (h1 : RankLe q a b)
    (h2 : RankLe q b c) : RankLe q a c := by
  rcases h1 with h1 | ⟨e1, s1⟩ <;> rcases h2 with h2 | ⟨e2, s2⟩
  · exact Or.inl (lt_trans h1 h2)
  · exact Or.inl (e2 ▸ h1)
  · exact Or.inl (e1 ▸ h2)
  · exact Or.inr ⟨e1.trans e2, strLe_trans s1 s2⟩

/-- A failed strict comparison yields the reverse non-strict comparison. -/
theorem rankLtB_false_imp {q a b : String} (h : rankLtB q a b = false) :
    RankLe q b a := by
  simp only [rankLtB, Bool.or_eq_false_iff, Bool.and_eq_false_iff,
    decide_eq_false_iff_not, not_lt, beq_iff_eq] at h
  obtain ⟨hle, hrest⟩ := h
  by_cases hblt : exactRank q b < exactRank q a
  · exact Or.inl hblt
  · have heq : exactRank q b = exactRank q a :=
      le_antisymm hle (not_lt.mp hblt)
    rcases hrest with hne | hfalse
    · simp at hne
      exact absurd heq.symm hne
    · by_cases hba : lexLt b.data a.data = true
      · exact Or.inr ⟨heq, Or.inr hba⟩
      · have hdata : a.data = b.data :=
          lexLt_eq_of_both_false hfalse (by simpa using hba)
        have hstr : b = a := by
          cases a with
          | mk da =>
            cases b with
            | mk db => exact congrArg String.mk hdata.symm
        exact Or.inr ⟨heq, Or.inl hstr⟩

/-- A successful strict comparison yields the non-strict comparison. -/
theorem rankLtB_true_imp {q a b : String} (h : rankLtB q a b = true) :
    RankLe q a b := by
  simp only [rankLtB, Bool.or_eq_true, Bool.and_eq_true,
    decide_eq_true_eq, beq_iff_eq] at h
  rcases h with h | ⟨heq, hlt⟩
  · exact Or.inl h
  · exact Or.inr ⟨heq, Or.inr hlt⟩

/-- `RankLe` is reflexive. -/
theorem RankLe_refl (q a : String) : RankLe q a a := Or.inr ⟨rfl, Or.inl rfl⟩

/-- `selectFirst` returns `none` exactly on the empty candidate list. -/
theorem selectFirst_eq_none {q : String} :
    ∀ {l : List String}, selectFirst q l = none ↔ l = [] := by
  intro l
  cases l with
  | nil => simp [selectFirst]
  | cons a t =>
    simp only [selectFirst]
    constructor
    · intro h
      split at h
      · simp at h
      · split at h <;> simp at h
    · intro h
      simp at h

/-- `selectFirst` returns an element of the list. -/
theorem selectFirst_mem {q : String} :
    ∀ {l : List String} {m : String}, selectFirst q l = some m → m ∈ l := by
  intro l
  induction l with
  | nil => intro m h; simp [selectFirst] at h
  | cons a t ih =>
    intro m h
    simp only [selectFirst] at h
    split at h
    · injection h with h
      exact h ▸ List.mem_cons_self a t
    · rename_i m2 hst
      split at h
      · injection h with h
        exact h ▸ List.mem_cons_self a t
      · injection h with h
        exact List.mem_cons_of_mem a (h ▸ ih hst)

/-- `selectFirst` returns a minimum under the query order. -/
theorem selectFirst_min {q : String} :
    ∀ {l : List String} {m : String}, selectFirst q l = some m →
      ∀ x ∈ l, RankLe q m x := by
  intro l
  induction l with
  | nil => intro m h; simp [selectFirst] at h
  | cons a t ih =>
    intro m h x hx
    simp only [selectFirst] at h
    split at h
    · rename_i hst
      injection h with h
      subst h
      have ht : t = [] := selectFirst_eq_none.mp hst
      subst ht
      rcases List.mem_cons.mp hx with rfl | hxt
      · exact RankLe_refl q x
      · simp at hxt
    · rename_i m2 hst
      split at h
      · rename_i hlt
        injection h with h
        subst h
        rcases List.mem_cons.mp hx with rfl | hxt
        · exact RankLe_refl q x
        · exact RankLe_trans (rankLtB_true_imp hlt) (ih hst x hxt)
      · rename_i hlt
        injection h with h
        subst h
        rcases List.mem_cons.mp hx with rfl | hxt
        · exact rankLtB_false_imp (by simpa using hlt)
        · exact ih hst x hxt


/-- A trip whose crew name set is `{"Ann", "Anna"}`: the captain is `Ann`
and one crew member joined with display name `Anna`. -/
def dbAnn : DB :=
  { trips := [{ id := "t1", adk_session_id := "sAnn", user_id := none,
                boat_name := none, captain_name := some "Ann",
                status := "Draft", trip_type := "Departing" }],
    items := [], users := [],
    trip_crew := [{ trip_id := "t1", user_id := "g1",
                    display_name := some "Anna" }],
    nextId := 0 }

/-- Claim C3: once the trip resolves, `FindCrewMember` returns `none` when no
crew name matches; when some crew name equals the query case-insensitively it
returns an exact match, the least such name in the sort order; when no exact
match exists but some crew name contains the query case-insensitively it
returns the least such substring match; and concretely, with crew
`{"Ann", "Anna"}`, resolving `"ann"` returns the exact match `"Ann"` and
resolving `"an"` returns `"Ann"` by the alphabetical tie-break. -/
theorem C3_resolution_determinism :
    (∀ (db : DB) (tripID q : String) (t : Trip),
      findTrip db tripID = some t →
      ((∀ n ∈ crewNames db t.id, crewMatch q n = false) →
        FindCrewMember db tripID q = Except.ok none) ∧
      (∀ n ∈ crewNames db t.id, n ≠ "" → eqFold n q = true →
        ∃ m, FindCrewMember db tripID q = Except.ok (some m) ∧
          m ∈ crewNames db t.id ∧ eqFold m q = true ∧
          ∀ x ∈ crewNames db t.id, x ≠ "" → eqFold x q = true → strLe m x) ∧
      ((∀ n ∈ crewNames db t.id, eqFold n q = false) →
        ∀ n ∈ crewNames db t.id, n ≠ "" → containsLowered n q = true →
        ∃ m, FindCrewMember db tripID q = Except.ok (some m) ∧
          m ∈ crewNames db t.id ∧ containsLowered m q = true ∧
          ∀ x ∈ crewNames db t.id, x ≠ "" → containsLowered x q = true →
            strLe m x))
    ∧ FindCrewMember dbAnn "t1" "ann" = Except.ok (some "Ann")
    ∧ FindCrewMember dbAnn "t1" "an" = Except.ok (some "Ann") := by
  refine ⟨?_, rfl, rfl⟩
  intro db tripID q t hft
  refine ⟨?_, ?_, ?_⟩
  · intro hnone
    have hfil : (crewNames db t.id).filter (crewMatch q) = [] :=
      List.filter_eq_nil_iff.mpr (fun n hn => by simp [hnone n hn])
    simp [FindCrewMember, hft, hfil, selectFirst]
  · intro n hn hne hex
    have hmatch : crewMatch q n = true := by
      simp [crewMatch, hex, bne_iff_ne, hne]
    have hncands : n ∈ (crewNames db t.id).filter (crewMatch q) :=
      List.mem_filter.mpr ⟨hn, hmatch⟩
    cases hsel : selectFirst q ((crewNames db t.id).filter (crewMatch q)) with
    | none =>
      rw [selectFirst_eq_none.mp hsel] at hncands
      simp at hncands
    | some m =>
      obtain ⟨hmcrew, hmmatch⟩ := List.mem_filter.mp (selectFirst_mem hsel)
      have hrle := selectFirst_min hsel n hncands
      have hrn : exactRank q n = 0 := by simp [exactRank, hex]
      have hrm : exactRank q m = 0 := by
        rcases hrle with hlt | ⟨heq, _⟩
        · rw [hrn] at hlt
          exact absurd hlt (Nat.not_lt_zero _)
        · rw [heq, hrn]
      have hexm : eqFold m q = true := by
        by_cases hc : eqFold m q = true
        · exact hc
        · simp [exactRank, hc] at hrm
      refine ⟨m, by simp [FindCrewMember, hft, hsel], hmcrew, hexm, ?_⟩
      intro x hx hxne hxex
      have hxmatch : crewMatch q x = true := by
        simp [crewMatch, hxex, bne_iff_ne, hxne]
      have hrlex := selectFirst_min hsel x (List.mem_filter.mpr ⟨hx, hxmatch⟩)
      rcases hrlex with hlt | ⟨_, hle⟩
      · rw [hrm] at hlt
        have hrx : exactRank q x = 0 := by simp [exactRank, hxex]
        rw [hrx] at hlt
        exact absurd hlt (Nat.not_lt_zero _)
      · exact hle
  · intro hnoex n hn hne hsub
    have hmatch : crewMatch q n = true := by
      simp [crewMatch, hsub, bne_iff_ne, hne]
    have hncands : n ∈ (crewNames db t.id).filter (crewMatch q) :=
      List.mem_filter.mpr ⟨hn, hmatch⟩
    cases hsel : selectFirst q ((crewNames db t.id).filter (crewMatch q)) with
    | none =>
      rw [selectFirst_eq_none.mp hsel] at hncands
      simp at hncands
    | some m =>
      obtain ⟨hmcrew, hmmatch⟩ := List.mem_filter.mp (selectFirst_mem hsel)
      have hsubm : containsLowered m q = true := by
        have hexm := hnoex m hmcrew
        simp [crewMatch, hexm] at hmmatch
        exact hmmatch.2
      refine ⟨m, by simp [FindCrewMember, hft, hsel], hmcrew, hsubm, ?_⟩
      intro x hx hxne hxsub
      have hxmatch : crewMatch q x = true := by
        simp [crewMatch, hxsub, bne_iff_ne, hxne]
      have hrlex := selectFirst_min hsel x (List.mem_filter.mpr ⟨hx, hxmatch⟩)
      rcases hrlex with hlt | ⟨_, hle⟩
      · have hrm : exactRank q m = 1 := by simp [exactRank, hnoex m hmcrew]
        have hrx : exactRank q x = 1 := by simp [exactRank, hnoex x hx]
        rw [hrm, hrx] at hlt
        exact absurd hlt (lt_irrefl _)
      · exact hle

/-- Witness for C3: the concrete `{"Ann", "Anna"}` resolution, `"ann"`
returning the exact match. -/
theorem C3_resolution_determinism_witness :
    FindCrewMember dbAnn "t1" "ann" = Except.ok (some "Ann") :=
  C3_resolution_determinism.2.1


/-! ### Claim C4: untrusted assignee names -/

/-- A trip owned by registered user `u1` (named `Zed`) with captain `Cap`,
no joined crew and no items: the spec-worded trusted crew set is exactly
`{"Cap"}`, yet the code also resolves against the owner name `Zed`. -/
def dbOwner : DB :=
  { trips := [{ id := "t1", adk_session_id := "s1", user_id := some "u1",
                boat_name := none, captain_name := some "Cap",
                status := "Draft", trip_type := "Departing" }],
    items := [], users := [{ id := "u1", name := some "Zed" }],
    trip_crew := [], nextId := 0 }

/-- Counterexample to C4 as stated: `Zed` is not in the trusted crew set the
claim describes (captain name, joined display names, users referenced by
item assignment/completion — here just `{"Cap"}`), yet
`UpdateItemWithAssignment` resolves it through the trip owner's registered
name and returns `matched = true`. -/
theorem C4_untrusted_name_counterexample :
    specTrustedCrewNames dbOwner "t1" = ["Cap"] ∧
    (specTrustedCrewNames dbOwner "t1").contains "Zed" = false ∧
    (UpdateItemWithAssignment dbOwner "t1" "Oil" false "" "" "u9" "Zed" 0).map
      (fun r => (r.2.2, r.2.1.assigned_to_name))
      = Except.ok (true, some "Zed") :=
  ⟨rfl, rfl, rfl⟩

/-- Claim C4 (amended): the code's resolution set is wider than the spec's
three sources — it additionally contains the trip owner's registered name
and the literal assigned/completed name columns, and a non-guest caller's
own registered name matches even outside that set.  With respect to that
resolution — `FindCrewMember` finding nothing and the caller-name fallback
failing — `UpdateItemWithAssignment` still succeeds, records the literal
free-text name as `assigned_to_name`, and returns `matched = false`. -/
theorem C4_untrusted_name_amended
    (db : DB) (tripID itemName : String) (isChecked : Bool)
    (location photoID currentUserID assignedToName : String) (now : Nat)
    (t : Trip) (ht : t ∈ db.trips) (htid : t.id = tripID)
    (hname : assignedToName ≠ "")
    (hres : FindCrewMember db tripID assignedToName = Except.ok none)
    (hfb : eqFold assignedToName (currentUserNameOf db currentUserID) = false
        ∨ currentUserNameOf db currentUserID = "") :
    (UpdateItemWithAssignment db tripID itemName isChecked location photoID
        currentUserID assignedToName now).map
      (fun r => (r.2.2, r.2.1.assigned_to_name))
      = Except.ok (false, some assignedToName) := by
  have hbne : (assignedToName != "") = true := by simp [bne_iff_ne, hname]
  have htrip : (db.trips.find? (fun tr => tr.id == tripID)).isSome = true := by
    rw [List.find?_isSome]
    exact ⟨t, ht, by simp [htid]⟩
  have hcond : (currentUserNameOf db currentUserID != "" &&
      eqFold assignedToName (currentUserNameOf db currentUserID)) = false := by
    rcases hfb with hfb | hfb <;> simp [hfb]
  cases hfind : db.items.find? (itemKeyIs tripID itemName) with
  | some old =>
    simp [UpdateItemWithAssignment, hres, hbne, hcond, UpdateItem, hfind,
      conflictUpdate, Except.map]
  | none =>
    simp [UpdateItemWithAssignment, hres, hbne, hcond, UpdateItem, hfind,
      htrip, Except.map]

/-- Witness for the amended C4: assigning `Nobody` (matching no crew-name
source) on the sample database records the literal name with
`matched = false`. -/
theorem C4_untrusted_name_amended_witness :
    (UpdateItemWithAssignment dbSample "t1" "Oil" false "" "" "" "Nobody"
        9).map (fun r => (r.2.2, r.2.1.assigned_to_name))
      = Except.ok (false, some "Nobody") :=
  C4_untrusted_name_amended dbSample "t1" "Oil" false "" "" "" "Nobody" 9
    tripT1 (by decide) rfl (by decide) rfl (Or.inr rfl)


/-! ### Claims C6 and C7: the change-notification trigger -/

/-- Claim C6: for a row change where `NEW` is assigned (INSERT/UPDATE), the
trigger emits exactly the truncated marker `{table, action, trip_id,
truncated}` — with no `data` field — when the serialized full payload
exceeds 7500 characters, and exactly the full payload carrying the whole
row as `data` (and no `truncated` field) otherwise. -/
theorem C6_truncation_fallback (tgTable tgOp : String)
    (fs : JsonFields) (v : Json)
    (hfield : (if tgTable == "trip" then recField (some fs) "id"
               else recField (some fs) "trip_id") = Except.ok v) :
    (notify_changes tgTable tgOp (some fs) = Except.ok (
      if (jsonText (Json.obj (JsonFields.cons "table" (Json.str tgTable)
            (JsonFields.cons "action" (Json.str tgOp)
              (JsonFields.cons "data" (Json.obj fs)
                (JsonFields.cons "trip_id" v JsonFields.nil)))))).length > 7500
      then Json.obj (JsonFields.cons "table" (Json.str tgTable)
            (JsonFields.cons "action" (Json.str tgOp)
              (JsonFields.cons "trip_id" v
                (JsonFields.cons "truncated" (Json.bool true) JsonFields.nil))))
      else Json.obj (JsonFields.cons "table" (Json.str tgTable)
            (JsonFields.cons "action" (Json.str tgOp)
              (JsonFields.cons "data" (Json.obj fs)
                (JsonFields.cons "trip_id" v JsonFields.nil)))))) ∧
    ((notify_changes tgTable tgOp (some fs)).map
        (fun j => (objLookup j "data", objLookup j "truncated")) =
      Except.ok (
        if (jsonText (Json.obj (JsonFields.cons "table" (Json.str tgTable)
              (JsonFields.cons "action" (Json.str tgOp)
                (JsonFields.cons "data" (Json.obj fs)
                  (JsonFields.cons "trip_id" v JsonFields.nil)))))).length > 7500
        then ((none : Option Json), some (Json.bool true))
        else (some (Json.obj fs), (none : Option Json)))) := by
  have h1 : notify_changes tgTable tgOp (some fs) =
      (if (jsonText (Json.obj (JsonFields.cons "table" (Json.str tgTable)
            (JsonFields.cons "action" (Json.str tgOp)
              (JsonFields.cons "data" (Json.obj fs)
                (JsonFields.cons "trip_id" v JsonFields.nil)))))).length > 7500
      then Except.ok (Json.obj (JsonFields.cons "table" (Json.str tgTable)
            (JsonFields.cons "action" (Json.str tgOp)
              (JsonFields.cons "trip_id" v
                (JsonFields.cons "truncated" (Json.bool true) JsonFields.nil)))))
      else Except.ok (Json.obj (JsonFields.cons "table" (Json.str tgTable)
            (JsonFields.cons "action" (Json.str tgOp)
              (JsonFields.cons "data" (Json.obj fs)
                (JsonFields.cons "trip_id" v JsonFields.nil)))))) := by
    simp only [notify_changes]
    split <;> rename_i hc
    · rw [if_pos hc] at hfield
      rw [hfield]
      rfl
    · rw [if_neg hc] at hfield
      rw [hfield]
      rfl
  constructor
  · rw [h1]
    split <;> rename_i hc <;> simp [hc]
  · rw [h1]
    split <;> rename_i hc <;>
      simp [hc, Except.map, objLookup, fieldsLookup]

/-- Witness for C6: a small `trip` INSERT payload is emitted in full, with
the row as `data` and no `truncated` field. -/
theorem C6_truncation_fallback_witness :
    (notify_changes "trip" "INSERT"
        (some (JsonFields.cons "id" (Json.str "t1") JsonFields.nil))).map
      (fun j => (objLookup j "data", objLookup j "truncated")) =
    Except.ok
      (if (jsonText (Json.obj (JsonFields.cons "table" (Json.str "trip")
            (JsonFields.cons "action" (Json.str "INSERT")
              (JsonFields.cons "data"
                (Json.obj (JsonFields.cons "id" (Json.str "t1") JsonFields.nil))
                (JsonFields.cons "trip_id" (Json.str "t1")
                  JsonFields.nil)))))).length > 7500
       then ((none : Option Json), some (Json.bool true))
       else (some (Json.obj (JsonFields.cons "id" (Json.str "t1")
              JsonFields.nil)), (none : Option Json))) :=
  (C6_truncation_fallback "trip" "INSERT"
    (JsonFields.cons "id" (Json.str "t1") JsonFields.nil)
    (Json.str "t1") rfl).2

/-- Claim C7 (refuted — the code contradicts the spec's intent): the trigger
fires on DELETE as well, but it reads `NEW.id` / `NEW.trip_id`
unconditionally, and in a PL/pgSQL row trigger `NEW` is not assigned for
DELETE; so instead of emitting a payload carrying the deleted row's trip id,
the trigger fails with the "record not assigned" error (the deleted row is
only available in `OLD`). -/
theorem C7_delete_payload_missing_trip_id :
    notify_changes "trip" "DELETE" none
      = Except.error "record \"new\" is not assigned yet" ∧
    notify_changes "checklist_item" "DELETE" none
      = Except.error "record \"new\" is not assigned yet" :=
  ⟨rfl, rfl⟩


/-! ### Claim C8: batch aggregation in the tool bridge -/

/-- Claim C8: the batch loop attempts every item (each contributes exactly
one success or one failure entry, and a failed item leaves the remaining
batch processed exactly as it would be on its own), and the aggregate status
is `success` iff no item failed and none warned, `warning` iff no item
failed and at least one warned, and `partial_success` iff at least one item
failed; a per-item result warns exactly when the updated row carries an
assignee that did not match the crew list. -/
theorem C8_batch_aggregation
    (db : DB) (ctx : ToolCtx) (updates : List UpdateChecklistArgs)
    (now : Nat) :
    ((updateItemsLoop ctx now db updates).2.1.length +
        (updateItemsLoop ctx now db updates).2.2.1.length = updates.length) ∧
    ((UpdateItems db ctx updates now).2.status = "success" ↔
      (updateItemsLoop ctx now db updates).2.2.1 = [] ∧
      (updateItemsLoop ctx now db updates).2.2.2 = []) ∧
    ((UpdateItems db ctx updates now).2.status = "warning" ↔
      (updateItemsLoop ctx now db updates).2.2.1 = [] ∧
      (updateItemsLoop ctx now db updates).2.2.2 ≠ []) ∧
    ((UpdateItems db ctx updates now).2.status = "partial_success" ↔
      (updateItemsLoop ctx now db updates).2.2.1 ≠ []) ∧
    (∀ (u : UpdateChecklistArgs) (rest : List UpdateChecklistArgs)
        (e : String),
      (updateItemInternal db ctx u now).2 = Except.error e →
      updateItemsLoop ctx now db (u :: rest) =
        ((updateItemsLoop ctx now (updateItemInternal db ctx u now).1 rest).1,
         (updateItemsLoop ctx now (updateItemInternal db ctx u now).1 rest).2.1,
         (u.item_name ++ ": " ++ e) ::
           (updateItemsLoop ctx now
             (updateItemInternal db ctx u now).1 rest).2.2.1,
         (updateItemsLoop ctx now
           (updateItemInternal db ctx u now).1 rest).2.2.2)) ∧
    (∀ (db0 : DB) (args : UpdateChecklistArgs) (tr : ToolResult)
        (item : ChecklistItem) (mf : Bool),
      (updateItemCore db0 ctx args now).2 = Except.ok (tr, item, mf) →
      (tr.status = "warning" ↔
        (item.assigned_to_name.isSome = true ∧ mf = false))) := by
  refine ⟨?_, ?_, ?_, ?_, ?_, ?_⟩
  · induction updates generalizing db with
    | nil => rfl
    | cons u rest ih =>
      simp only [updateItemsLoop]
      cases hstep : (updateItemInternal db ctx u now).2 with
      | error e =>
        have harith := ih (updateItemInternal db ctx u now).1
        simp [hstep]
        omega
      | ok res =>
        by_cases hw : res.status == "warning" <;>
          simp [hstep, hw, ih, Nat.succ_add]
  · cases herr : (updateItemsLoop ctx now db updates).2.2.1 <;>
      cases hwarn : (updateItemsLoop ctx now db updates).2.2.2 <;>
      simp [UpdateItems, herr, hwarn]
  · cases herr : (updateItemsLoop ctx now db updates).2.2.1 <;>
      cases hwarn : (updateItemsLoop ctx now db updates).2.2.2 <;>
      simp [UpdateItems, herr, hwarn]
  · cases herr : (updateItemsLoop ctx now db updates).2.2.1 <;>
      cases hwarn : (updateItemsLoop ctx now db updates).2.2.2 <;>
      simp [UpdateItems, herr, hwarn]
  · intro u rest e hstep
    simp only [updateItemsLoop]
    rw [hstep]
  · intro db0 args tr item mf hcore
    simp only [updateItemCore] at hcore
    split at hcore
    · simp at hcore
    · split at hcore
      · simp at hcore
      · split at hcore
        · simp at hcore
        · rename_i db2 updated matchFound heq
          simp only [Except.ok.injEq, Prod.mk.injEq] at hcore
          obtain ⟨htr, hitem, hmf⟩ := hcore
          subst htr
          subst hitem
          subst hmf
          cases han : updated.assigned_to_name <;> cases matchFound <;>
            simp [han]


/-- A tool context bound to the sample trip's ADK session. -/
def toolCtxS1 : ToolCtx := { session_id := "s1", user_id := "" }

/-- A checkbox-only batch entry for the item `Oil`. -/
def batchOil : UpdateChecklistArgs :=
  { item_name := "Oil", is_checked := true, location := "",
    photo_artifact_id := "", assigned_to_name := "" }

/-- A batch entry assigning `Marina` to an unmatched name. -/
def batchMarina : UpdateChecklistArgs :=
  { item_name := "Marina", is_checked := false, location := "",
    photo_artifact_id := "", assigned_to_name := "Nobody" }

/-- Witness for C8: a concrete two-item batch is attempted in full — two
success entries, no failure entries. -/
theorem C8_batch_aggregation_witness :
    (updateItemsLoop toolCtxS1 5 dbSample [batchOil, batchMarina]).2.1.length +
      (updateItemsLoop toolCtxS1 5 dbSample
        [batchOil, batchMarina]).2.2.1.length
      = ([batchOil, batchMarina] : List UpdateChecklistArgs).length :=
  (C8_batch_aggregation dbSample toolCtxS1 [batchOil, batchMarina] 5).1


/-! ### Claim C9: subscribe-time authorization and presence seeding -/

/-- The channel `trip:{id}` always carries its literal prefix. -/
theorem trip_channel_prefix (tripID : String) :
    ("trip:".data.isPrefixOf ("trip:" ++ tripID).data) = true := by
  cases tripID with
  | mk d =>
    show (['t', 'r', 'i', 'p', ':'].isPrefixOf
      (['t', 'r', 'i', 'p', ':'] ++ d)) = true
    simp [List.isPrefixOf]

/-- Trimming the `trip:` prefix from `trip:{id}` returns the id. -/
theorem trip_channel_trim (tripID : String) :
    String.mk (("trip:" ++ tripID).data.drop 5) = tripID := by
  cases tripID with
  | mk d => exact congrArg String.mk (List.drop_left ['t', 'r', 'i', 'p', ':'] d)

/-- Claim C9: for a `trip:{id}` channel, a failed trip lookup denies the
subscription with permission-denied; an existing trip allows it, and the
reply's initial data is the server-fetched presence snapshot of the
channel. -/
theorem C9_subscribe_authorization
    (db : DB) (presenceRes : Except String (Option (List (String × String))))
    (tripID : String) :
    (findTrip db tripID = none →
      OnSubscribe db presenceRes ("trip:" ++ tripID)
        = Except.error SubscribeError.permissionDenied) ∧
    (∀ t : Trip, findTrip db tripID = some t →
      ∀ m : List (String × String), presenceRes = Except.ok (some m) →
      OnSubscribe db presenceRes ("trip:" ++ tripID)
        = Except.ok ⟨true, true, true, marshalPresence m⟩) := by
  constructor
  · intro hnone
    simp [OnSubscribe, trip_channel_prefix tripID, trip_channel_trim tripID,
      GetTrip, hnone]
  · intro t ht m hm
    simp [OnSubscribe, trip_channel_prefix tripID, trip_channel_trim tripID,
      GetTrip, ht, hm]

/-- Witness for C9: subscribing to the sample trip's channel is allowed and
seeded with the current presence snapshot. -/
theorem C9_subscribe_authorization_witness :
    OnSubscribe dbSample
        (Except.ok (some [("u1", "\x7b\"name\":\"Ann\"\x7d")]))
        ("trip:" ++ "t1")
      = Except.ok ⟨true, true, true,
          marshalPresence [("u1", "\x7b\"name\":\"Ann\"\x7d")]⟩ :=
  (C9_subscribe_authorization dbSample
      (Except.ok (some [("u1", "\x7b\"name\":\"Ann\"\x7d")])) "t1").2
    tripT1 rfl [("u1", "\x7b\"name\":\"Ann\"\x7d")] rfl

/-! ### Claim C10: trip operations accept either key -/

/-- `find?` returns the unique matching element. -/
theorem find?_eq_some_of_unique {α : Type} (p : α → Bool) {l : List α}
    {t : α} (ht : t ∈ l) (hpt : p t = true)
    (huniq : ∀ x ∈ l, p x = true → x = t) : l.find? p = some t := by
  induction l with
  | nil => simp at ht
  | cons a rest ih =>
    by_cases hpa : p a = true
    · rw [List.find?_cons_of_pos _ hpa]
      rw [huniq a (List.mem_cons_self a rest) hpa]
    · rw [List.find?_cons_of_neg _ hpa]
      rcases List.mem_cons.mp ht with rfl | hrest
      · exact absurd hpt hpa
      · exact ih hrest (fun x hx hpx =>
          huniq x (List.mem_cons_of_mem a hx) hpx)

/-- Claim C10: when a trip's primary key and ADK session id each identify it
uniquely among the trip rows, every trip-scoped operation —
`GetTrip`, `GetTripReport`, `UpdateTripStatus`, `UpdateTripType`,
`DeleteTrip`, `GetActiveCrewNames` — behaves identically on the two keys,
and reads resolve to that very trip. -/
theorem C10_trip_key_flexibility
    (db : DB) (t : Trip) (ht : t ∈ db.trips)
    (h1 : ∀ t2 ∈ db.trips, tripMatches t.id t2 = true → t2 = t)
    (h2 : ∀ t2 ∈ db.trips, tripMatches t.adk_session_id t2 = true → t2 = t) :
    GetTrip db t.id = Except.ok t ∧
    GetTrip db t.adk_session_id = Except.ok t ∧
    GetTripReport db t.id = GetTripReport db t.adk_session_id ∧
    (∀ st, UpdateTripStatus db t.id st
      = UpdateTripStatus db t.adk_session_id st) ∧
    (∀ ty, UpdateTripType db t.id ty
      = UpdateTripType db t.adk_session_id ty) ∧
    DeleteTrip db t.id = DeleteTrip db t.adk_session_id ∧
    GetActiveCrewNames db t.id = GetActiveCrewNames db t.adk_session_id ∧
    GetActiveCrewNames db t.id
      = Except.ok ((crewNames db t.id).filter (fun n => n != "")) := by
  have hmt1 : tripMatches t.id t = true := by simp [tripMatches]
  have hmt2 : tripMatches t.adk_session_id t = true := by simp [tripMatches]
  have hfind1 : findTrip db t.id = some t :=
    find?_eq_some_of_unique _ ht hmt1 h1
  have hfind2 : findTrip db t.adk_session_id = some t :=
    find?_eq_some_of_unique _ ht hmt2 h2
  have hcong : ∀ x ∈ db.trips,
      tripMatches t.id x = tripMatches t.adk_session_id x := by
    intro x hx
    by_cases hxt : x = t
    · subst hxt
      rw [hmt1, hmt2]
    · cases hm1 : tripMatches t.id x with
      | true => exact absurd (h1 x hx hm1) hxt
      | false =>
        cases hm2 : tripMatches t.adk_session_id x with
        | true => exact absurd (h2 x hx hm2) hxt
        | false => rfl
  have hfilter : db.trips.filter (tripMatches t.id)
      = db.trips.filter (tripMatches t.adk_session_id) :=
    List.filter_congr hcong
  have hfilterneg :
      db.trips.filter (fun tr => !(tripMatches t.id tr))
        = db.trips.filter (fun tr => !(tripMatches t.adk_session_id tr)) :=
    List.filter_congr (fun x hx => by rw [hcong x hx])
  refine ⟨?_, ?_, ?_, ?_, ?_, ?_, ?_, ?_⟩
  · simp [GetTrip, hfind1]
  · simp [GetTrip, hfind2]
  · simp [GetTripReport, hfind1, hfind2]
  · intro st
    have hmap : db.trips.map
        (fun tr => if tripMatches t.id tr then { tr with status := st } else tr)
        = db.trips.map
          (fun tr => if tripMatches t.adk_session_id tr
            then { tr with status := st } else tr) :=
      List.map_congr_left (fun x hx => by rw [hcong x hx])
    simp only [UpdateTripStatus]
    rw [hfilter, hmap]
  · intro ty
    have hmap : db.trips.map
        (fun tr => if tripMatches t.id tr
          then { tr with trip_type := ty } else tr)
        = db.trips.map
          (fun tr => if tripMatches t.adk_session_id tr
            then { tr with trip_type := ty } else tr) :=
      List.map_congr_left (fun x hx => by rw [hcong x hx])
    simp only [UpdateTripType]
    rw [hfilter, hmap]
  · simp only [DeleteTrip]
    rw [hfilter, hfilterneg]
  · simp [GetActiveCrewNames, hfind1, hfind2]
  · simp [GetActiveCrewNames, hfind1]

/-- Witness for C10: on the sample database the sample trip is read back by
its primary key. -/
theorem C10_trip_key_flexibility_witness :
    GetTrip dbSample "t1" = Except.ok tripT1 :=
  (C10_trip_key_flexibility dbSample tripT1 (by decide) (by decide)
    (by decide)).1

end Navallist
